import Mathlib

/-!
Shallow embedding of `plot_figures.py` (repository `entropy`), the script that
renders the two manuscript figures, together with theorems settling the
specification claims about it.

The numeric arrays of the script are embedded as functions `Fin 800 → ℝ`
(one value per grid point, real-number idealisation of the float arrays);
`np.linspace`, the curve formulas, and the numpy slice reversal `[::-1]` are
translated directly from the source.  The script's I/O behaviour (two
`savefig` calls, two `print` calls, top-level dispatch) is embedded as an
explicit event-trace semantics.
-/

namespace PlotFigures

/-- `np.linspace a b n`: `n` evenly spaced samples from `a` to `b` inclusive;
for `n ≥ 2` the `i`-th sample is `a + (b - a) * i / (n - 1)`. -/
noncomputable def linspace (a b : ℝ) (n : ℕ) : Fin n → ℝ :=
  fun i => a + (b - a) * (i.val : ℝ) / ((n : ℝ) - 1)

/-- numpy slice reversal `x[::-1]` of an array of length `n`:
element `i` of the result is element `n - 1 - i` of the original. -/
def npReverse {n : ℕ} (f : Fin n → ℝ) : Fin n → ℝ :=
  fun i => f ⟨n - 1 - i.val, by omega⟩

/-- `gauss(x, mu, sigma)` from the source:
`np.exp(-0.5 * ((x - mu) / sigma) ** 2) / (sigma * np.sqrt(2 * np.pi))`. -/
noncomputable def gauss (x mu sigma : ℝ) : ℝ :=
  Real.exp (-0.5 * ((x - mu) / sigma) ^ 2) / (sigma * Real.sqrt (2 * Real.pi))

/-! Figure 1 (`fig1_mirror`): sample grid and the two mirrored curves. -/

/-- `t = np.linspace(-3, 3, 800)`. -/
noncomputable def t : Fin 800 → ℝ := linspace (-3) 3 800

/-- `i0 = len(t) // 2` with `len(t) = 800`. -/
def i0 : ℕ := 800 / 2

/-- `S_A = 2.0 + 0.8 * np.tanh(0.5 * t) + 0.06 * np.sin(3.5 * t)`,
evaluated elementwise on the grid. -/
noncomputable def S_A : Fin 800 → ℝ :=
  fun i => 2.0 + 0.8 * Real.tanh (0.5 * t i) + 0.06 * Real.sin (3.5 * t i)

/-- `S_B = S_A[::-1].copy()`. -/
noncomputable def S_B : Fin 800 → ℝ := npReverse S_A

/-- `S0 = S_A[i0]`. -/
noncomputable def S0 : ℝ := S_A ⟨i0, by decide⟩

/-! Figure 2 (`fig2_distribution`): grids, densities and mixture. -/

/-- `S = np.linspace(-1, 9, 800)` (panel (a) grid). -/
noncomputable def S : Fin 800 → ℝ := linspace (-1) 9 800

/-- `P1 = gauss(S, 4.0, 0.8)`. -/
noncomputable def P1 : Fin 800 → ℝ := fun i => gauss (S i) 4.0 0.8

/-- `shift = 1.5`. -/
noncomputable def shift : ℝ := 1.5

/-- `P2 = gauss(S, 4.0 + shift, 0.8)`. -/
noncomputable def P2 : Fin 800 → ℝ := fun i => gauss (S i) (4.0 + shift) 0.8

/-- `S_b = np.linspace(-2, 10, 800)` (panel (b) grid). -/
noncomputable def S_b : Fin 800 → ℝ := linspace (-2) 10 800

/-- `S_max = 8.0`. -/
noncomputable def S_max : ℝ := 8.0

/-- `S_lo = 1.0`. -/
noncomputable def S_lo : ℝ := 1.0

/-- `S_hi = 4.5`. -/
noncomputable def S_hi : ℝ := 4.5

/-- `sigma_unc = 0.5`. -/
noncomputable def sigma_unc : ℝ := 0.5

/-- `w_lo = 0.62`. -/
noncomputable def w_lo : ℝ := 0.62

/-- `w_hi = 0.38`. -/
noncomputable def w_hi : ℝ := 0.38

/-- `P1b = gauss(S_b, S_max, sigma_unc)`. -/
noncomputable def P1b : Fin 800 → ℝ := fun i => gauss (S_b i) S_max sigma_unc

/-- The elementwise formula of
`P2b = w_lo * gauss(S_b, S_lo, 0.5) + w_hi * gauss(S_b, S_hi, 0.5)`
as a function of the sample value (numpy broadcasts it over `S_b`). -/
noncomputable def P2bFun : ℝ → ℝ :=
  fun x => w_lo * gauss x S_lo 0.5 + w_hi * gauss x S_hi 0.5

/-- `P2b` as the grid array: the elementwise formula sampled on `S_b`. -/
noncomputable def P2b : Fin 800 → ℝ := fun i => P2bFun (S_b i)

/-- The `sigma` argument of every call to `gauss` in the script, in source
order: lines 127 (`P1`), 129 (`P2`), 138 (`pk`), 162 (`P1b`), 165 (the two
mixture components of `P2b`), 178 (`pk_blue`), 185 and 186 (the two
annotation anchors). -/
noncomputable def callSiteSigmas : List ℝ :=
  [0.8, 0.8, 0.8, 0.5, 0.5, 0.5, 0.5, 0.5, 0.5]

/-! I/O skeleton of the script: each figure builder computes its arrays
(pure), calls `fig.savefig(<fixed name>)` and then `print('Saved <name>')`;
the top-level dispatch runs `fig1_mirror()` then `fig2_distribution()`.
Runs are embedded as event traces paired with a completion flag (`false`
means an uncaught exception terminated the program). -/

/-- One observable I/O action of the script. -/
inductive FigEvent
  | wroteFile (name : String)
  | printedLine (text : String)

/-- The fixed output filename of `fig1_mirror`. -/
def fig1FileName : String := "fig_mirror_paradox.pdf"

/-- The fixed output filename of `fig2_distribution`. -/
def fig2FileName : String := "fig_distribution_change.pdf"

/-- The confirmation line `print('Saved <name>')` emits. -/
def savedMessage (name : String) : String := "Saved " ++ name

/-- Modelled from the spec: the behaviour of the rendering library's
`fig.savefig(name)` call, whose filesystem semantics is not code of this
repository.  Per the spec, on a writable working directory it writes the
named file (overwriting any previous one); with the output directory
read-only it raises a filesystem-permission failure before anything is
written, and the script has no handler, so the failure propagates
uncaught and terminates the program. -/
def savefigRun (writable : Bool) (name : String) : List FigEvent × Bool :=
  if writable then ([FigEvent.wroteFile name], true) else ([], false)

/-- I/O skeleton of `fig1_mirror`: save, then print the confirmation;
a save failure aborts before the print runs. -/
def fig1_mirror_run (writable : Bool) : List FigEvent × Bool :=
  let r := savefigRun writable fig1FileName
  if r.2 then (r.1 ++ [FigEvent.printedLine (savedMessage fig1FileName)], true)
  else (r.1, false)

/-- I/O skeleton of `fig2_distribution`: save, then print the confirmation;
a save failure aborts before the print runs. -/
def fig2_distribution_run (writable : Bool) : List FigEvent × Bool :=
  let r := savefigRun writable fig2FileName
  if r.2 then (r.1 ++ [FigEvent.printedLine (savedMessage fig2FileName)], true)
  else (r.1, false)

/-- Top-level dispatch (`if __name__ == '__main__'`): run `fig1_mirror()`,
and only if it completed, run `fig2_distribution()`; an uncaught exception
in the first builder prevents the second from running at all. -/
def main_run (writable : Bool) : List FigEvent × Bool :=
  let r1 := fig1_mirror_run writable
  if r1.2 then
    let r2 := fig2_distribution_run writable
    (r1.1 ++ r2.1, r2.2)
  else (r1.1, false)

/-- The console lines of a trace, in order. -/
def printedLines : List FigEvent → List String
  | [] => []
  | FigEvent.printedLine s :: es => s :: printedLines es
  | FigEvent.wroteFile _ :: es => printedLines es

/-- The files written by a trace, in order. -/
def wroteFiles : List FigEvent → List String
  | [] => []
  | FigEvent.wroteFile n :: es => n :: wroteFiles es
  | FigEvent.printedLine _ :: es => wroteFiles es

/-- Everything one run of the program produces: the computed numeric
arrays (represented by the figure-1 base curve and the figure-2 mixture
curve) together with the I/O trace and the completion flag. -/
structure RunOutcome where
  mirrorCurve : Fin 800 → ℝ
  mixtureCurve : Fin 800 → ℝ
  events : List FigEvent
  completed : Bool

/-- Outcome of a run with a writable working directory. -/
noncomputable def successOutcome : RunOutcome :=
  ⟨S_A, P2b, (main_run true).1, (main_run true).2⟩

/-- Outcome of a run with a read-only working directory: the arrays are
still computed, but the first save fails and nothing is written. -/
noncomputable def failedOutcome : RunOutcome :=
  ⟨S_A, P2b, (main_run false).1, (main_run false).2⟩

/-- Big-step run relation of the program: it takes no input, so the only
environment is whether the working directory is writable, and each
environment admits exactly one outcome. -/
inductive RunRel : Bool → RunOutcome → Prop
  | success : RunRel true successOutcome
  | saveFailed : RunRel false failedOutcome

end PlotFigures

namespace PlotFigures

/-- Claim C1: in `fig1_mirror`, the derived curve `S_B` is the exact
index-reversed copy of `S_A`: for every index `i` with `0 ≤ i ≤ 799`,
`S_B[i]` equals `S_A[799 - i]` exactly. -/
theorem SB_eq_SA_reversed (i : Fin 800) :
    S_B i = S_A ⟨799 - i.val, by omega⟩ := rfl

/-- Claim C4: in `fig2_distribution` panel (a), the two densities
`P1 = gauss(S, 4.0, 0.8)` and `P2 = gauss(S, 5.5, 0.8)` have identical width
and differ by a pure horizontal translation of `1.5`: for every `x`,
`gauss (x + 1.5) (4.0 + 1.5) 0.8 = gauss x 4.0 0.8`; on the grid, `P1` and
`P2` are these two densities sampled at the same points. -/
theorem translation_only :
    (∀ x : ℝ, gauss (x + 1.5) (4.0 + 1.5) 0.8 = gauss x 4.0 0.8) ∧
    (∀ i : Fin 800, P1 i = gauss (S i) 4.0 0.8) ∧
    (∀ i : Fin 800, P2 i = gauss (S i) (4.0 + 1.5) 0.8) := by
  refine ⟨fun x => ?_, fun i => rfl, fun i => rfl⟩
  have h : (x + 1.5 - (4.0 + 1.5) : ℝ) = x - 4.0 := by ring
  simp only [gauss, h]

/-- Claim C5: `gauss` computes the normal density
`exp(-0.5*((x-mean)/sigma)^2) / (sigma*sqrt(2*pi))`, and for every `mu`,
every `sigma > 0` and every `x`, `gauss mu mu sigma ≥ gauss x mu sigma`:
the value at the mean is the maximum of the function. -/
theorem gauss_peak_is_max (mu sigma x : ℝ) (hs : 0 < sigma) :
    gauss mu mu sigma ≥ gauss x mu sigma := by
  unfold gauss
  have hc : 0 < sigma * Real.sqrt (2 * Real.pi) :=
    mul_pos hs (Real.sqrt_pos.mpr (by positivity))
  rw [ge_iff_le, div_le_div_iff_of_pos_right hc]
  apply Real.exp_le_exp.mpr
  have h1 : ((mu - mu) / sigma : ℝ) = 0 := by simp
  rw [h1]
  nlinarith [sq_nonneg ((x - mu) / sigma)]

/-- Witness for C5 at `mu = 0`, `sigma = 1`, `x = 2`. -/
theorem gauss_peak_is_max_witness :
    (0 : ℝ) < 1 ∧ gauss 0 0 1 ≥ gauss 2 0 1 :=
  ⟨one_pos, gauss_peak_is_max 0 1 2 one_pos⟩

/-- The grid sample just right of the midpoint: `t[400] = 3/799`. -/
lemma t_400 : t ⟨400, by decide⟩ = 3 / 799 := by
  simp only [t, linspace]
  norm_num

/-- The grid sample just left of the midpoint: `t[399] = -(3/799)`. -/
lemma t_399 : t ⟨399, by decide⟩ = -(3 / 799) := by
  simp only [t, linspace]
  norm_num

/-- `tanh` is positive on positive arguments. -/
lemma tanh_pos_of_pos {x : ℝ} (hx : 0 < x) : 0 < Real.tanh x := by
  rw [Real.tanh_eq_sinh_div_cosh]
  exact div_pos (Real.sinh_pos_iff.mpr hx) (Real.cosh_pos x)

/-- The two samples adjacent to the midpoint differ by more than `1/1000`:
the odd part `0.8*tanh(0.5 t) + 0.06*sin(3.5 t)` of the base curve is
strictly positive at `t[400] = 3/799 > 0`. -/
lemma S_A_midpoint_gap :
    1 / 1000 < S_A ⟨400, by decide⟩ - S_A ⟨399, by decide⟩ := by
  simp only [S_A, t_400, t_399]
  have ht : 0 < Real.tanh (0.5 * (3 / 799)) := tanh_pos_of_pos (by norm_num)
  have hsin : (3.5 * (3 / 799) : ℝ) - (3.5 * (3 / 799)) ^ 3 / 4
      < Real.sin (3.5 * (3 / 799)) :=
    Real.sin_gt_sub_cube (by norm_num) (by norm_num)
  have hneg1 : Real.tanh (0.5 * -(3 / 799)) = -Real.tanh (0.5 * (3 / 799)) := by
    rw [show (0.5 * -(3 / 799) : ℝ) = -(0.5 * (3 / 799)) by ring, Real.tanh_neg]
  have hneg2 : Real.sin (3.5 * -(3 / 799)) = -Real.sin (3.5 * (3 / 799)) := by
    rw [show (3.5 * -(3 / 799) : ℝ) = -(3.5 * (3 / 799)) by ring, Real.sin_neg]
  rw [hneg1, hneg2]
  have hc : (1 : ℝ) / 1000
      < 0.12 * ((3.5 * (3 / 799)) - (3.5 * (3 / 799)) ^ 3 / 4) := by norm_num
  nlinarith [ht, hsin, hc]

/-- Counterexample to claim C2 as stated: at the midpoint index 400 the two
mirrored curves do NOT share a value within floating-point tolerance; the
difference `S_A[400] - S_B[400]` exceeds `1/1000` (it is about `4.6e-3`),
far beyond any floating-point rounding of values near 2.7. -/
theorem SA_SB_midpoint_not_equal :
    S_B ⟨400, by decide⟩ < S_A ⟨400, by decide⟩ ∧
    1 / 1000 < S_A ⟨400, by decide⟩ - S_B ⟨400, by decide⟩ := by
  have hrev : S_B ⟨400, by decide⟩ = S_A ⟨399, by decide⟩ := rfl
  have h := S_A_midpoint_gap
  constructor
  · rw [hrev]; linarith
  · rw [hrev]; linarith

/-- Claim C2, amended: the mirrored curves meet with equal value at `t = 0`,
but `0` is not a grid sample; at the midpoint index 400 the reversed curve
gives the neighbouring sample, `S_B[400] = S_A[799 - 400] = S_A[399]`, which
is strictly smaller than `S_A[400]`, so the two arrays do not agree at
index 400 (the gap is about `4.6e-3`, beyond floating-point tolerance). -/
theorem SB_midpoint_is_neighbour_sample :
    S_B ⟨400, by decide⟩ = S_A ⟨399, by decide⟩ ∧
    S_B ⟨400, by decide⟩ < S_A ⟨400, by decide⟩ := by
  have hrev : S_B ⟨400, by decide⟩ = S_A ⟨399, by decide⟩ := rfl
  have h := S_A_midpoint_gap
  exact ⟨hrev, by rw [hrev]; linarith⟩

/-- Claim C9: the sample grid `t = linspace(-3, 3, 800)` contains no point
equal to 0; the midpoint index is `i0 = 800 // 2 = 400`, whose sample is
`t[400] = 3/799 > 0` (the sample just right of 0), and the shared plotted
value is `S0 = S_A[400]`; the marker drawn at `x = 0` is at no grid sample. -/
theorem grid_misses_zero :
    (∀ i : Fin 800, t i ≠ 0) ∧
    i0 = 400 ∧
    t ⟨400, by decide⟩ = 3 / 799 ∧
    0 < t ⟨400, by decide⟩ ∧
    S0 = S_A ⟨400, by decide⟩ := by
  refine ⟨fun i h => ?_, rfl, t_400, by rw [t_400]; norm_num, rfl⟩
  simp only [t, linspace] at h
  have h6 : (i.val : ℝ) * 6 = 2397 := by
    have h799 : ((800 : ℕ) : ℝ) - 1 ≠ 0 := by norm_num
    field_simp at h
    linarith
  have hn : i.val * 6 = 2397 := by exact_mod_cast h6
  omega

/-- `gauss` is strictly positive whenever `sigma > 0`. -/
lemma gauss_pos {sigma : ℝ} (hs : 0 < sigma) (x mu : ℝ) :
    0 < gauss x mu sigma := by
  unfold gauss
  exact div_pos (Real.exp_pos _) (mul_pos hs (Real.sqrt_pos.mpr (by positivity)))

/-- For `sigma > 0`, `gauss · mu sigma` is the Gaussian probability density
with mean `mu` and variance `sigma ^ 2`. -/
lemma gauss_eq_gaussianPDFReal {sigma : ℝ} (hs : 0 < sigma) (mu x : ℝ) :
    gauss x mu sigma
      = ProbabilityTheory.gaussianPDFReal mu ⟨sigma ^ 2, sq_nonneg sigma⟩ x := by
  simp only [gauss, ProbabilityTheory.gaussianPDFReal, NNReal.coe_mk]
  have h1 : Real.sqrt (2 * Real.pi * sigma ^ 2) = sigma * Real.sqrt (2 * Real.pi) := by
    rw [show (2 * Real.pi * sigma ^ 2 : ℝ) = sigma ^ 2 * (2 * Real.pi) by ring,
      Real.sqrt_mul (by positivity) _, Real.sqrt_sq hs.le]
  have h2 : (-0.5 * ((x - mu) / sigma) ^ 2 : ℝ) = -(x - mu) ^ 2 / (2 * sigma ^ 2) := by
    field_simp
    ring
  rw [h1, h2, div_eq_mul_inv, mul_comm]

/-- For `sigma > 0`, `gauss · mu sigma` integrates to 1 over the real line. -/
lemma integral_gauss {sigma : ℝ} (hs : 0 < sigma) (mu : ℝ) :
    ∫ x, gauss x mu sigma = 1 := by
  have h : ∀ y, gauss y mu sigma
      = ProbabilityTheory.gaussianPDFReal mu ⟨sigma ^ 2, sq_nonneg sigma⟩ y :=
    gauss_eq_gaussianPDFReal hs mu
  have hv : (⟨sigma ^ 2, sq_nonneg sigma⟩ : NNReal) ≠ 0 := by
    intro hzero
    have hc := congrArg NNReal.toReal hzero
    simp only [NNReal.coe_mk, NNReal.coe_zero] at hc
    exact pow_ne_zero 2 (ne_of_gt hs) hc
  simp only [h]
  exact ProbabilityTheory.integral_gaussianPDFReal_eq_one mu hv

/-- `gauss · mu sigma` is integrable for `sigma > 0`. -/
lemma gauss_integrable {sigma : ℝ} (hs : 0 < sigma) (mu : ℝ) :
    MeasureTheory.Integrable (fun x => gauss x mu sigma) := by
  have h : (fun x => gauss x mu sigma)
      = ProbabilityTheory.gaussianPDFReal mu ⟨sigma ^ 2, sq_nonneg sigma⟩ :=
    funext (gauss_eq_gaussianPDFReal hs mu)
  rw [h]
  exact ProbabilityTheory.integrable_gaussianPDFReal mu _

/-- Claim C3: in `fig2_distribution` panel (b), the constrained curve `P2b`
is the two-component weighted mixture
`w_lo * gauss(S_b, 1.0, 0.5) + w_hi * gauss(S_b, 4.5, 0.5)` with fixed
weights `w_lo = 0.62` and `w_hi = 0.38` summing exactly to 1, and the
mixture density integrates to 1 over its domain (the real line). -/
theorem P2b_is_normalized_mixture :
    w_lo + w_hi = (1 : ℝ) ∧
    (∀ i : Fin 800,
      P2b i = 0.62 * gauss (S_b i) 1.0 0.5 + 0.38 * gauss (S_b i) 4.5 0.5) ∧
    ∫ x, P2bFun x = 1 := by
  refine ⟨by unfold w_lo w_hi; norm_num, fun i => rfl, ?_⟩
  have h05 : (0 : ℝ) < 0.5 := by norm_num
  have hint1 : MeasureTheory.Integrable (fun x => gauss x S_lo 0.5) :=
    gauss_integrable h05 S_lo
  have hint2 : MeasureTheory.Integrable (fun x => gauss x S_hi 0.5) :=
    gauss_integrable h05 S_hi
  unfold P2bFun
  rw [MeasureTheory.integral_add (hint1.const_mul w_lo) (hint2.const_mul w_hi),
    MeasureTheory.integral_mul_left, MeasureTheory.integral_mul_left,
    integral_gauss h05 S_lo, integral_gauss h05 S_hi]
  unfold w_lo w_hi
  norm_num

/-- Claim C10: `gauss` divides by `sigma`, and every call site in the script
passes a literal `sigma` in `{0.8, 0.5}`, so the division-by-zero case is
unreachable; under `sigma > 0` the function is strictly positive everywhere,
hence every plotted curve `P1`, `P2`, `P1b`, `P2b` is pointwise strictly
positive. -/
theorem gauss_callsites_safe :
    (∀ s ∈ callSiteSigmas, s = (0.8 : ℝ) ∨ s = (0.5 : ℝ)) ∧
    (∀ s ∈ callSiteSigmas, (0 : ℝ) < s) ∧
    (∀ x mu sigma : ℝ, 0 < sigma → 0 < gauss x mu sigma) ∧
    (∀ i : Fin 800, 0 < P1 i) ∧ (∀ i : Fin 800, 0 < P2 i) ∧
    (∀ i : Fin 800, 0 < P1b i) ∧ (∀ i : Fin 800, 0 < P2b i) := by
  have h08 : (0 : ℝ) < 0.8 := by norm_num
  have h05 : (0 : ℝ) < 0.5 := by norm_num
  refine ⟨?_, ?_, fun x mu sigma hs => gauss_pos hs x mu, ?_, ?_, ?_, ?_⟩
  · intro s hs
    fin_cases hs <;> norm_num
  · intro s hs
    fin_cases hs <;> norm_num
  · exact fun i => gauss_pos h08 (S i) 4.0
  · exact fun i => gauss_pos h08 (S i) (4.0 + shift)
  · intro i
    have hunc : (0 : ℝ) < sigma_unc := by unfold sigma_unc; norm_num
    exact gauss_pos hunc (S_b i) S_max
  · intro i
    have hw1 : (0 : ℝ) < w_lo := by unfold w_lo; norm_num
    have hw2 : (0 : ℝ) < w_hi := by unfold w_hi; norm_num
    exact add_pos (mul_pos hw1 (gauss_pos h05 (S_b i) S_lo))
      (mul_pos hw2 (gauss_pos h05 (S_b i) S_hi))

/-- Witness for C10: `sigma = 1 > 0` gives a positive value, and the first
call-site sigma `0.8` is a member of the call-site list. -/
theorem gauss_callsites_safe_witness :
    ((0 : ℝ) < 1 ∧ 0 < gauss 0 0 1) ∧
    ((0.8 : ℝ) ∈ callSiteSigmas ∧ ((0.8 : ℝ) = 0.8 ∨ (0.8 : ℝ) = 0.5)) :=
  ⟨⟨one_pos, gauss_callsites_safe.2.2.1 0 0 1 one_pos⟩,
    ⟨by simp [callSiteSigmas],
      gauss_callsites_safe.1 0.8 (by simp [callSiteSigmas])⟩⟩

/-- Claim C6: with the output directory read-only, the first `savefig`
raises a filesystem-permission failure that propagates uncaught: the run
does not complete, zero files are written, no confirmation is printed, and
no save succeeds after the first failure (the trace is empty). -/
theorem readonly_run_writes_nothing :
    main_run false = ([], false) ∧
    wroteFiles (main_run false).1 = [] ∧
    printedLines (main_run false).1 = [] :=
  ⟨rfl, rfl, rfl⟩

/-- Claim C7: on a successful run the trace is exactly: write
`fig_mirror_paradox.pdf`, print `Saved fig_mirror_paradox.pdf`, write
`fig_distribution_change.pdf`, print `Saved fig_distribution_change.pdf` —
one literal `Saved <filename>` line per saved file, each printed only after
the corresponding save, and no other console output. -/
theorem console_output_on_success :
    main_run true =
      ([FigEvent.wroteFile fig1FileName,
        FigEvent.printedLine (savedMessage fig1FileName),
        FigEvent.wroteFile fig2FileName,
        FigEvent.printedLine (savedMessage fig2FileName)], true) ∧
    printedLines (main_run true).1
      = [savedMessage fig1FileName, savedMessage fig2FileName] ∧
    savedMessage fig1FileName = "Saved fig_mirror_paradox.pdf" ∧
    savedMessage fig2FileName = "Saved fig_distribution_change.pdf" :=
  ⟨rfl, rfl, rfl, rfl⟩

/-- Claim C8: the program is deterministic: in a fixed environment (it
takes no input; the only environment bit is directory writability) any two
runs produce the same outcome — identical numeric arrays, identical traces,
and in particular identical console messages. -/
theorem run_deterministic (w : Bool) (r₁ r₂ : RunOutcome)
    (h₁ : RunRel w r₁) (h₂ : RunRel w r₂) :
    r₁ = r₂ ∧ r₁.mirrorCurve = r₂.mirrorCurve ∧
    r₁.mixtureCurve = r₂.mixtureCurve ∧
    printedLines r₁.events = printedLines r₂.events := by
  cases h₁ <;> cases h₂ <;> exact ⟨rfl, rfl, rfl, rfl⟩

/-- Witness for C8: two successful runs coincide. -/
theorem run_deterministic_witness :
    RunRel true successOutcome ∧
    (successOutcome = successOutcome ∧
      successOutcome.mirrorCurve = successOutcome.mirrorCurve ∧
      successOutcome.mixtureCurve = successOutcome.mixtureCurve ∧
      printedLines successOutcome.events = printedLines successOutcome.events) :=
  ⟨RunRel.success,
    run_deterministic true successOutcome successOutcome RunRel.success RunRel.success⟩

end PlotFigures
